import Mathlib

/-
  Verification of the corporate entity resolution engine of OpenDart-mcp.

  The definitions below are a shallow embedding of:
    - src/dart_mcp/tools/find_company_by_name.py  (resolution facade)
    - src/dart_mcp/db/sqlite.py                   (SQLiteDB wrapper)
    - src/dart_mcp/settings/startup.py            (corpus synchronizer)
  External library behaviour that the code relies on is modelled from the
  libraries' documented semantics: SQLite's LIKE operator (default build:
  `%` and `_` wildcards, ASCII-case-insensitive comparison), CPython's
  stable `list.sort` with `reverse=True`, and Python sqlite3's legacy
  transaction control (an implicit BEGIN before DML statements only; DDL
  and SELECT run in autocommit mode when no transaction is open).
-/

/-- A row of the corp list table as selected by `find_company_corp_code_by_name`
    (SELECT corp_code, corp_name, corp_eng_name, stock_code). -/
structure Entity where
  corp_code : String
  corp_name : String
  corp_eng_name : String
  stock_code : String
deriving DecidableEq

/-- ASCII lower-casing: folds only the letters A-Z, exactly the folding that
    SQLite's default LIKE applies. All other characters are untouched. -/
def asciiLower (c : Char) : Char :=
  if 'A' ≤ c ∧ c ≤ 'Z' then Char.ofNat (c.toNat + 32) else c

/-- Character comparison used by SQLite's default LIKE: equality up to ASCII case. -/
def foldEq (a b : Char) : Bool := decide (asciiLower a = asciiLower b)

/-- SQLite LIKE pattern matching over character lists (default build, no ESCAPE):
    `%` matches any sequence of zero or more characters, `_` matches exactly one
    character, and ordinary characters compare ASCII-case-insensitively. -/
def likeMatch : List Char → List Char → Bool
  | [], s => s.isEmpty
  | c :: ps, s =>
    if c = '%' then s.tails.any (fun t => likeMatch ps t)
    else
      match s with
      | [] => false
      | d :: s' => (decide (c = '_') || foldEq c d) && likeMatch ps s'

/-- The search term built by find_company_corp_code_by_name: f-string wrapping
    of the query between two `%` wildcards. -/
def likePattern (q : String) : String := "%" ++ q ++ "%"

/-- The candidate retrieval: the rows of the store whose corp_name matches
    LIKE the wrapped pattern, in storage order (the WHERE filter of the
    SELECT in find_company_corp_code_by_name, with no ORDER BY). -/
def candidates (store : List Entity) (q : String) : List Entity :=
  store.filter (fun e => likeMatch (likePattern q).data e.corp_name.data)

/-- Abstraction of the TF-IDF + cosine-similarity step: from the query and the
    candidate names, either a list of similarity scores (one per candidate, in
    candidate order) or `none` when vectorization raises (the `except` path). -/
def Scorer : Type := String → List String → Option (List ℚ)

/-- Python list slicing `l[:k]` for an arbitrary integer `k`: for `k ≥ 0` the
    first `k` elements, for `k < 0` everything but the last `|k|` elements. -/
def pythonSlice {α : Type} (k : ℤ) (l : List α) : List α :=
  if 0 ≤ k then l.take k.toNat else l.take (l.length - k.natAbs)

/-- Insertion step of the stable descending sort: `x` is placed before the
    first element whose score is ≤ the score of `x`, hence after every earlier
    element with a strictly greater score and before later equal scores. -/
def insertDesc (x : ℚ × Entity) : List (ℚ × Entity) → List (ℚ × Entity)
  | [] => [x]
  | y :: l => if y.1 ≤ x.1 then x :: y :: l else y :: insertDesc x l

/-- Stable descending sort on (score, row) pairs; models the documented
    behaviour of CPython `list.sort(key=lambda x: x[0], reverse=True)`,
    which is stable (equal keys keep their original relative order). -/
def sortDesc : List (ℚ × Entity) → List (ℚ × Entity)
  | [] => []
  | x :: l => insertDesc x (sortDesc l)

/-- Observable storage operations issued by the resolution facade. -/
inductive DbCall where
  | fetchAll (search_term : String)
deriving DecidableEq

/-- The part of find_company_corp_code_by_name after the DB fetch: empty
    result short-circuit, then the try/except block — on scorer success the
    pairs (score, row) are stable-sorted by descending score, projected to
    rows and sliced to `k`; on scorer failure the rows are returned as-is. -/
def resolveFromRows (scorer : Scorer) (corp_name : String) (k : ℤ)
    (db_results : List Entity) : List Entity :=
  if db_results.isEmpty then []
  else
    match scorer corp_name (db_results.map Entity.corp_name) with
    | some scores => pythonSlice k ((sortDesc (scores.zip db_results)).map Prod.snd)
    | none => db_results

/-- find_company_corp_code_by_name: builds the search term, unconditionally
    performs the single fetch_all (first component: the trace of storage
    calls issued), then ranks. There is no input validation of any kind. -/
def find_company_corp_code_by_name (scorer : Scorer) (store : List Entity)
    (corp_name : String) (k : ℤ) : List DbCall × List Entity :=
  let search_term := likePattern corp_name
  let db_results := candidates store corp_name
  ([DbCall.fetchAll search_term], resolveFromRows scorer corp_name k db_results)

/-- A storage-layer error (sqlite3.Error), raised by SQLiteDB.fetch_all on
    connection or query failure and never caught by the facade. -/
inductive DbErr where
  | sqliteError (msg : String)
deriving DecidableEq

/-- find_company_corp_code_by_name with an explicit fetch outcome: the
    `with DB_INSTANCE as db: db.fetch_all(...)` step sits outside the
    try/except, so a storage error propagates to the caller unchanged. -/
def resolveExc (scorer : Scorer) (fetched : Except DbErr (List Entity))
    (corp_name : String) (k : ℤ) : Except DbErr (List Entity) :=
  match fetched with
  | Except.error e => Except.error e
  | Except.ok db_results => Except.ok (resolveFromRows scorer corp_name k db_results)

/-- Errors surfaced by the synchronizer: the ValueError raised by
    insert_many_dicts on an empty list, a storage error raised by the
    underlying executemany, and the fatal count-mismatch exception. -/
inductive SyncErr where
  | valueError
  | dbError
  | countMismatch
deriving DecidableEq

/-- The state seen through one sqlite3 connection to the corpus database:
    the committed (on-disk) corpus table — `none` when the table does not
    exist — and, when a transaction is open, the uncommitted working copy.
    `txn = none` is autocommit mode (no open transaction), the initial state
    of a fresh connection (SQLiteDB.__enter__). -/
structure SQLiteDB (α : Type) where
  committed : Option (List α)
  txn : Option (Option (List α))
deriving DecidableEq

/-- The table as the connection itself sees it: the working copy when a
    transaction is open, the committed table otherwise. -/
def SQLiteDB.view {α : Type} (db : SQLiteDB α) : Option (List α) :=
  db.txn.getD db.committed

/-- Executing a DDL statement (DROP/CREATE) under Python sqlite3's legacy
    transaction control: no transaction is implicitly opened, so with no
    open transaction the statement autocommits directly to disk; inside an
    open transaction it joins that transaction. -/
def SQLiteDB.execDDL {α : Type} (db : SQLiteDB α)
    (f : Option (List α) → Option (List α)) : SQLiteDB α :=
  match db.txn with
  | some w => { db with txn := some (f w) }
  | none => { db with committed := f db.committed }

/-- Executing a DML statement (INSERT): sqlite3 implicitly opens a
    transaction first when none is open, so the effect stays uncommitted. -/
def SQLiteDB.execDML {α : Type} (db : SQLiteDB α)
    (f : Option (List α) → Option (List α)) : SQLiteDB α :=
  { db with txn := some (f db.view) }

/-- conn.commit(): makes the connection's view durable and closes the
    transaction. -/
def SQLiteDB.commit {α : Type} (db : SQLiteDB α) : SQLiteDB α :=
  { committed := db.view, txn := none }

/-- conn.rollback(): discards the open transaction, if any; what was already
    committed (including autocommitted DDL) is untouched. -/
def SQLiteDB.rollback {α : Type} (db : SQLiteDB α) : SQLiteDB α :=
  { db with txn := none }

/-- SQLiteDB.create_table: optionally DROP TABLE IF EXISTS, then
    CREATE TABLE IF NOT EXISTS — two DDL statements. -/
def SQLiteDB.create_table {α : Type} (db : SQLiteDB α) (drop_if_exists : Bool) :
    SQLiteDB α :=
  let db1 := if drop_if_exists then db.execDDL (fun _ => none) else db
  db1.execDDL (fun t => some (t.getD []))

/-- SQLiteDB.insert_many_dicts: raises ValueError on an empty list before
    touching the database; otherwise one executemany INSERT (DML). The
    `execFails` flag models the underlying executemany raising a
    sqlite3.Error; the rows it may have inserted before failing live only in
    the still-open transaction, so the final state after the context
    manager's rollback does not depend on how far it got. -/
def SQLiteDB.insert_many_dicts {α : Type} (db : SQLiteDB α) (rows : List α)
    (execFails : Bool) : Except SyncErr Unit × SQLiteDB α :=
  if rows.isEmpty then (Except.error SyncErr.valueError, db)
  else
    let db1 := db.execDML (fun t => some (t.getD [] ++ rows))
    if execFails then (Except.error SyncErr.dbError, db1) else (Except.ok (), db1)

/-- SELECT COUNT(1) on the corpus table, read through the connection
    (uncommitted changes of the same connection are visible). -/
def SQLiteDB.rowCount {α : Type} (db : SQLiteDB α) : Nat :=
  ((db.view).getD []).length

/-- Row count of an on-disk table (the Entity Store's count). -/
def tableCount {α : Type} (t : Option (List α)) : Nat := (t.getD []).length

/-- The post-insert consistency check of fetch_dart_corp_list (startup.py):
    raise when the DB count differs from the number of fetched records. -/
def countCheck (dbCount fetchedCount : Nat) : Except SyncErr Unit :=
  if dbCount ≠ fetchedCount then Except.error SyncErr.countMismatch
  else Except.ok ()

/-- fetch_dart_corp_list (startup.py) run against an on-disk table `disk`
    with fetched corpus `data`: connect, create_table(drop_if_exists=True),
    insert_many_dicts, SELECT COUNT(1), mismatch check; on any raised error
    the with-block rolls back and re-raises, on success it commits. Returns
    the outcome and the on-disk table after the connection closes. -/
def fetch_dart_corp_list {α : Type} (disk : Option (List α)) (data : List α)
    (execFails : Bool) : Except SyncErr Unit × Option (List α) :=
  let db0 : SQLiteDB α := ⟨disk, none⟩
  let db1 := db0.create_table true
  match db1.insert_many_dicts data execFails with
  | (Except.error e, db2) => (Except.error e, db2.rollback.committed)
  | (Except.ok _, db2) =>
    match countCheck db2.rowCount data.length with
    | Except.error e => (Except.error e, db2.rollback.committed)
    | Except.ok _ => (Except.ok (), db2.commit.committed)

/-- Unfolding of a leading `%` in the pattern: some suffix of the text must
    match the rest of the pattern. -/
theorem likeMatch_percent_cons (ps s : List Char) :
    likeMatch ('%' :: ps) s = true ↔ ∃ t, t <:+ s ∧ likeMatch ps t = true := by
  simp [likeMatch, List.mem_tails]

/-- The pattern consisting of a single `%` matches every text. -/
theorem likeMatch_percent_single (s : List Char) : likeMatch ['%'] s = true :=
  (likeMatch_percent_cons [] s).mpr ⟨[], List.nil_suffix, rfl⟩

/-- Every character fold-matches itself. -/
theorem foldEq_self (c : Char) : foldEq c c = true := by
  simp [foldEq]

/-- A pattern `s%` matches any text that starts with `s` literally: each
    pattern character (wildcard or not) accepts the identical text
    character, and the final `%` absorbs the rest. -/
theorem likeMatch_self_append_percent (s v : List Char) :
    likeMatch (s ++ ['%']) (s ++ v) = true := by
  induction s with
  | nil => simpa using likeMatch_percent_single v
  | cons c s ih =>
    by_cases hc : c = '%'
    · subst hc
      rw [List.cons_append, List.cons_append, likeMatch_percent_cons]
      exact ⟨s ++ v, List.suffix_cons '%' (s ++ v), ih⟩
    · rw [List.cons_append, List.cons_append]
      simp only [likeMatch, if_neg hc, foldEq_self, Bool.or_true, Bool.true_and]
      exact ih

/-- A wildcard-free pattern followed by `%` matches a text exactly when the
    text starts, up to ASCII case, with the pattern. -/
theorem likeMatch_plain_append_percent (p : List Char)
    (hp : ∀ c ∈ p, c ≠ '%' ∧ c ≠ '_') (s : List Char) :
    likeMatch (p ++ ['%']) s = true ↔
      ∃ s1 s2, s = s1 ++ s2 ∧ p.map asciiLower = s1.map asciiLower := by
  induction p generalizing s with
  | nil =>
    simp only [List.nil_append]
    constructor
    · intro _
      exact ⟨[], s, rfl, rfl⟩
    · intro _
      exact likeMatch_percent_single s
  | cons a p ih =>
    have ha := hp a (List.mem_cons_self a p)
    have hp2 : ∀ c ∈ p, c ≠ '%' ∧ c ≠ '_' :=
      fun c hc => hp c (List.mem_cons_of_mem a hc)
    cases s with
    | nil =>
      constructor
      · intro h
        rw [List.cons_append] at h
        simp only [likeMatch, if_neg ha.1] at h
        exact absurd h (by simp)
      · rintro ⟨s1, s2, h12, hmap⟩
        rcases List.append_eq_nil.mp h12.symm with ⟨rfl, rfl⟩
        simp at hmap
    | cons c s =>
      rw [List.cons_append]
      simp only [likeMatch, if_neg ha.1, Bool.and_eq_true, Bool.or_eq_true]
      constructor
      · rintro ⟨hor, hrest⟩
        have hfold : asciiLower a = asciiLower c := by
          rcases hor with h1 | h2
          · exact absurd (of_decide_eq_true h1) ha.2
          · simpa [foldEq] using h2
        obtain ⟨s1, s2, rfl, hm⟩ := (ih hp2 s).mp hrest
        exact ⟨c :: s1, s2, rfl, by simp [hfold, hm]⟩
      · rintro ⟨s1, s2, h12, hm⟩
        cases s1 with
        | nil => simp at hm
        | cons c1 s1 =>
          rw [List.cons_append] at h12
          rw [List.cons.injEq] at h12
          obtain ⟨rfl, hs2⟩ := h12
          simp only [List.map_cons, List.cons.injEq] at hm
          refine ⟨Or.inr ?_, (ih hp2 s).mpr ⟨s1, s2, hs2, hm.2⟩⟩
          simp [foldEq, hm.1]

/-- Core characterization of the LIKE query for a wildcard-free query string:
    the pattern %p% matches a name exactly when p is a substring of the name
    after ASCII case-folding on both sides. -/
theorem likeMatch_fold_substring (p t : List Char)
    (hp : ∀ c ∈ p, c ≠ '%' ∧ c ≠ '_') :
    likeMatch ('%' :: (p ++ ['%'])) t = true ↔
      p.map asciiLower <:+: t.map asciiLower := by
  rw [likeMatch_percent_cons]
  constructor
  · rintro ⟨w, ⟨u, hu⟩, hw⟩
    obtain ⟨s1, s2, rfl, hm⟩ := (likeMatch_plain_append_percent p hp w).mp hw
    refine ⟨u.map asciiLower, s2.map asciiLower, ?_⟩
    rw [← hu]
    simp [hm]
  · rintro ⟨a, b, hab⟩
    obtain ⟨u, w, rfl, hum, hwm⟩ := List.map_eq_append_iff.mp hab.symm
    obtain ⟨u0, u1, rfl, h0m, h1m⟩ := List.map_eq_append_iff.mp hum
    refine ⟨u1 ++ w, ⟨u0, by rw [List.append_assoc]⟩, ?_⟩
    exact (likeMatch_plain_append_percent p hp (u1 ++ w)).mpr ⟨u1, w, rfl, h1m.symm⟩

/-- The character list of the wrapped search term. -/
theorem likePattern_data (q : String) :
    (likePattern q).data = '%' :: (q.data ++ ['%']) := by
  simp [likePattern]

/-- Membership in an insertion: the inserted element or an original one. -/
theorem mem_insertDesc {z x : ℚ × Entity} {l : List (ℚ × Entity)}
    (hz : z ∈ insertDesc x l) : z = x ∨ z ∈ l := by
  induction l with
  | nil => simpa [insertDesc] using hz
  | cons y l ih =>
    rw [insertDesc] at hz
    by_cases hc : y.1 ≤ x.1
    · rw [if_pos hc] at hz
      simpa [List.mem_cons] using hz
    · rw [if_neg hc] at hz
      rcases List.mem_cons.mp hz with rfl | hz2
      · exact Or.inr (List.mem_cons_self z l)
      · rcases ih hz2 with h1 | h2
        · exact Or.inl h1
        · exact Or.inr (List.mem_cons_of_mem y h2)

/-- Inserting into a list that is pairwise non-increasing on scores keeps it
    pairwise non-increasing. -/
theorem pairwise_insertDesc (x : ℚ × Entity) (l : List (ℚ × Entity))
    (h : l.Pairwise (fun a b => b.1 ≤ a.1)) :
    (insertDesc x l).Pairwise (fun a b => b.1 ≤ a.1) := by
  induction l with
  | nil => simp [insertDesc]
  | cons y l ih =>
    obtain ⟨hy, hl⟩ := List.pairwise_cons.mp h
    rw [insertDesc]
    by_cases hc : y.1 ≤ x.1
    · rw [if_pos hc]
      refine List.pairwise_cons.mpr ⟨?_, h⟩
      intro z hz
      rcases List.mem_cons.mp hz with rfl | hz2
      · exact hc
      · exact le_trans (hy z hz2) hc
    · rw [if_neg hc]
      refine List.pairwise_cons.mpr ⟨?_, ih hl⟩
      intro z hz
      rcases mem_insertDesc hz with rfl | hz2
      · exact le_of_lt (lt_of_not_le hc)
      · exact hy z hz2

/-- The output of the stable descending sort is ordered by non-increasing
    score. -/
theorem sortDesc_pairwise (l : List (ℚ × Entity)) :
    (sortDesc l).Pairwise (fun a b => b.1 ≤ a.1) := by
  induction l with
  | nil => simp [sortDesc]
  | cons x l ih => exact pairwise_insertDesc x _ ih

/-- Filtering one score class through an insertion: the inserted element, when
    it belongs to the class, lands in front of the class (everything it was
    inserted behind has a strictly greater score). -/
theorem filter_insertDesc (x : ℚ × Entity) (l : List (ℚ × Entity)) (q : ℚ) :
    (insertDesc x l).filter (fun ab => decide (ab.1 = q)) =
      if x.1 = q then x :: l.filter (fun ab => decide (ab.1 = q))
      else l.filter (fun ab => decide (ab.1 = q)) := by
  induction l with
  | nil =>
    by_cases hx : x.1 = q <;> simp [insertDesc, hx]
  | cons y l ih =>
    rw [insertDesc]
    by_cases hc : y.1 ≤ x.1
    · rw [if_pos hc]
      by_cases hx : x.1 = q <;> simp [List.filter_cons, hx]
    · rw [if_neg hc]
      have hyx : x.1 < y.1 := lt_of_not_le hc
      by_cases hx : x.1 = q
      · have hy : ¬ y.1 = q := by
          rw [← hx]
          exact ne_of_gt hyx
        simp [List.filter_cons, hy, hx, ih]
      · by_cases hy : y.1 = q <;> simp [List.filter_cons, hy, hx, ih]

/-- Stability of the descending sort: each score class comes out in exactly
    its original order. -/
theorem sortDesc_filter (l : List (ℚ × Entity)) (q : ℚ) :
    (sortDesc l).filter (fun ab => decide (ab.1 = q)) =
      l.filter (fun ab => decide (ab.1 = q)) := by
  induction l with
  | nil => rfl
  | cons x l ih =>
    rw [sortDesc, filter_insertDesc]
    by_cases hx : x.1 = q <;> simp [List.filter_cons, hx, ih]

/-- Length bound of the Python slice `l[:k]` for non-negative `k`. -/
theorem pythonSlice_length_le {α : Type} (k : ℤ) (hk : 0 ≤ k) (l : List α) :
    (pythonSlice k l).length ≤ k.toNat := by
  rw [pythonSlice, if_pos hk]
  simp [List.length_take]

/-- C1, counterexample: calling the facade with an empty (hence
    whitespace-free invalid) query and non-positive k = 0 still issues the
    database LIKE query — the trace of storage calls is not empty, so the
    call is not rejected before storage I/O. -/
theorem resolve_invalid_input_queries_counterex :
    (find_company_corp_code_by_name (fun _ _ => none) [] "" 0).1 =
      [DbCall.fetchAll "%%"] ∧
    (find_company_corp_code_by_name (fun _ _ => none) [] "" 0).1 ≠ [] := by
  exact ⟨rfl, by decide⟩

/-- C1, amended: find_company_corp_code_by_name performs no input validation
    at all — for every query (empty or whitespace-only included) and every
    integer k (non-positive included) it executes exactly one fetch_all with
    the wrapped LIKE pattern, and never raises before doing so. -/
theorem resolve_always_queries (scorer : Scorer) (store : List Entity)
    (q : String) (k : ℤ) :
    (find_company_corp_code_by_name scorer store q k).1 =
      [DbCall.fetchAll (likePattern q)] := rfl

/-- C2, counterexample: with two stored entities matching the query and
    k = 1, a vectorization failure makes the facade return both candidates:
    the fallback path does not truncate to k, so the top-K bound fails. -/
theorem topk_fallback_counterex :
    ((find_company_corp_code_by_name (fun _ _ => none)
        [⟨"1", "ab", "", ""⟩, ⟨"2", "ba", "", ""⟩] "a" 1).2).length = 2 ∧
    ¬ (2 ≤ 1) := by
  exact ⟨by decide, by decide⟩

/-- C2, amended: for k ≥ 0 the ranked path (vectorization succeeds) returns
    at most k entities; but on the fallback path (vectorization fails) the
    candidates are returned in original order WITHOUT truncation. -/
theorem topk_amended (scorer : Scorer) (store : List Entity) (q : String)
    (k : ℤ) (hk : 0 ≤ k) :
    ((scorer q ((candidates store q).map Entity.corp_name)).isSome →
      (((find_company_corp_code_by_name scorer store q k).2).length : ℤ) ≤ k) ∧
    (scorer q ((candidates store q).map Entity.corp_name) = none →
      (find_company_corp_code_by_name scorer store q k).2 = candidates store q) := by
  constructor
  · intro hsome
    rw [find_company_corp_code_by_name]
    rw [resolveFromRows]
    by_cases hemp : (candidates store q).isEmpty
    · rw [if_pos hemp]
      simpa using hk
    · rw [if_neg hemp]
      cases hsc : scorer q ((candidates store q).map Entity.corp_name) with
      | none => rw [hsc] at hsome; simp at hsome
      | some scores =>
        calc (((pythonSlice k ((sortDesc (scores.zip (candidates store q))).map
                Prod.snd)).length : ℕ) : ℤ)
            ≤ (k.toNat : ℤ) := by
              exact_mod_cast pythonSlice_length_le k hk _
          _ = k := Int.toNat_of_nonneg hk
  · intro hnone
    rw [find_company_corp_code_by_name]
    rw [resolveFromRows]
    by_cases hemp : (candidates store q).isEmpty
    · rw [if_pos hemp]
      exact (List.isEmpty_iff.mp hemp).symm
    · rw [if_neg hemp, hnone]

/-- C2, witness for the amended bound at a concrete input. -/
theorem topk_amended_witness :
    (0 : ℤ) ≤ 1 ∧
    (((find_company_corp_code_by_name (fun _ _ => some [1])
        [⟨"1", "a", "", ""⟩] "a" 1).2).length : ℤ) ≤ 1 :=
  ⟨by decide,
   (topk_amended (fun _ _ => some [1]) [⟨"1", "a", "", ""⟩] "a" 1
     (by decide)).1 rfl⟩

/-- C6: substring completeness of the candidate retrieval — every stored
    entity whose name contains the query as a contiguous substring is
    returned by the LIKE query (each query character, wildcard or not,
    accepts the identical name character, and the surrounding wildcards
    absorb the rest of the name). -/
theorem substring_completeness (store : List Entity) (e : Entity) (s : String)
    (he : e ∈ store) (hs : s.data <:+: e.corp_name.data) :
    e ∈ candidates store s := by
  obtain ⟨u, v, huv⟩ := hs
  rw [candidates, List.mem_filter]
  refine ⟨he, ?_⟩
  rw [likePattern_data, likeMatch_percent_cons]
  refine ⟨s.data ++ v, ⟨u, ?_⟩, likeMatch_self_append_percent s.data v⟩
  rw [← List.append_assoc]
  exact huv

/-- C6, witness at a concrete store and substring. -/
theorem substring_completeness_witness :
    (⟨"1", "abc", "", ""⟩ : Entity) ∈ ([⟨"1", "abc", "", ""⟩] : List Entity) ∧
    "b".data <:+: "abc".data ∧
    (⟨"1", "abc", "", ""⟩ : Entity) ∈ candidates [⟨"1", "abc", "", ""⟩] "b" :=
  ⟨by decide, by decide,
   substring_completeness [⟨"1", "abc", "", ""⟩] ⟨"1", "abc", "", ""⟩ "b"
     (by decide) (by decide)⟩

/-- C8: a storage error raised during candidate retrieval propagates out of
    find_company_corp_code_by_name unchanged — it is never caught and never
    turned into a successful (for example empty) result. -/
theorem storage_error_propagates (scorer : Scorer) (q : String) (k : ℤ)
    (e : DbErr) :
    resolveExc scorer (Except.error e) q k = Except.error e ∧
    ∀ l : List Entity, resolveExc scorer (Except.error e) q k ≠ Except.ok l := by
  constructor
  · rfl
  · intro l h
    simp [resolveExc] at h

/-- C10: resolution is deterministic — the result is a function of the store
    contents, the query and k alone (the embedding threads no other state,
    mirroring that the code reads no clock, no randomness and no mutable
    globals besides the store). -/
theorem resolve_deterministic (scorer : Scorer) (s1 s2 : List Entity)
    (q1 q2 : String) (k1 k2 : ℤ) (hs : s1 = s2) (hq : q1 = q2) (hk : k1 = k2) :
    (find_company_corp_code_by_name scorer s1 q1 k1).2 =
      (find_company_corp_code_by_name scorer s2 q2 k2).2 := by
  rw [hs, hq, hk]

/-- C10, witness: two calls with equal arguments agree. -/
theorem resolve_deterministic_witness :
    ([⟨"1", "a", "", ""⟩] : List Entity) = [⟨"1", "a", "", ""⟩] ∧
    (find_company_corp_code_by_name (fun _ _ => none)
        [⟨"1", "a", "", ""⟩] "a" 1).2 =
      (find_company_corp_code_by_name (fun _ _ => none)
        [⟨"1", "a", "", ""⟩] "a" 1).2 :=
  ⟨rfl, resolve_deterministic (fun _ _ => none) _ _ _ _ _ _ rfl rfl rfl⟩

/-- C5, counterexample: the pattern abc contains no wildcard and is not a
    case-sensitive substring of the stored name ABC, yet the LIKE retrieval
    returns that entity — SQLite's default LIKE compares ASCII letters
    case-insensitively, so the claimed case-sensitive semantics is wrong. -/
theorem candidate_match_case_counterex :
    (⟨"00000001", "ABC", "", ""⟩ : Entity) ∈
      candidates [⟨"00000001", "ABC", "", ""⟩] "abc" ∧
    ¬ ("abc".data <:+: "ABC".data) := by
  exact ⟨by decide, by decide⟩

/-- C5, amended: for a wildcard-free pattern p, the retrieval returns a
    stored entity exactly when p is a substring of the entity's name after
    ASCII case-folding of both sides (SQLite default LIKE semantics); a
    pattern differing from the name only in ASCII letter case DOES match. -/
theorem candidate_match_ascii_fold (store : List Entity) (e : Entity)
    (p : String) (hp : ∀ c ∈ p.data, c ≠ '%' ∧ c ≠ '_') :
    e ∈ candidates store p ↔
      e ∈ store ∧
        p.data.map asciiLower <:+: e.corp_name.data.map asciiLower := by
  rw [candidates, List.mem_filter, likePattern_data]
  rw [likeMatch_fold_substring p.data e.corp_name.data hp]

/-- C5, witness for the amended characterization at a concrete input. -/
theorem candidate_match_ascii_fold_witness :
    (∀ c ∈ "abc".data, c ≠ '%' ∧ c ≠ '_') ∧
    ((⟨"9", "ABC", "", ""⟩ : Entity) ∈ candidates [⟨"9", "ABC", "", ""⟩] "abc" ↔
      (⟨"9", "ABC", "", ""⟩ : Entity) ∈ ([⟨"9", "ABC", "", ""⟩] : List Entity) ∧
        "abc".data.map asciiLower <:+: "ABC".data.map asciiLower) :=
  ⟨by decide,
   candidate_match_ascii_fold [⟨"9", "ABC", "", ""⟩] ⟨"9", "ABC", "", ""⟩ "abc"
     (by decide)⟩

/-- C7: whenever vectorization succeeds, the scored candidates are ordered by
    non-increasing similarity score, ties keep the candidates' relative order
    from retrieval (each score class is returned in its original order), and
    the facade's result is exactly that stable-sorted list projected to rows
    and truncated to k. -/
theorem ranked_sorted_stable (scorer : Scorer) (store : List Entity)
    (q : String) (k : ℤ) (scores : List ℚ)
    (h : scorer q ((candidates store q).map Entity.corp_name) = some scores)
    (_hlen : scores.length = (candidates store q).length) :
    (sortDesc (scores.zip (candidates store q))).Pairwise
      (fun a b => b.1 ≤ a.1) ∧
    (∀ x : ℚ, (sortDesc (scores.zip (candidates store q))).filter
        (fun ab => decide (ab.1 = x)) =
      (scores.zip (candidates store q)).filter (fun ab => decide (ab.1 = x))) ∧
    (find_company_corp_code_by_name scorer store q k).2 =
      pythonSlice k ((sortDesc (scores.zip (candidates store q))).map Prod.snd) := by
  refine ⟨sortDesc_pairwise _, fun x => sortDesc_filter _ x, ?_⟩
  rw [find_company_corp_code_by_name]
  rw [resolveFromRows]
  by_cases hemp : (candidates store q).isEmpty
  · rw [if_pos hemp]
    rw [List.isEmpty_iff.mp hemp]
    rw [List.zip_nil_right]
    rw [show sortDesc [] = [] from rfl]
    simp [pythonSlice]
  · rw [if_neg hemp, h]

/-- C7, witness: sortedness, stability and the truncation identity at a
    concrete two-candidate store. -/
theorem ranked_sorted_stable_witness :
    ((fun _ _ => some [(1 : ℚ), 2]) : Scorer) "a"
        ((candidates [⟨"1", "ab", "", ""⟩, ⟨"2", "ba", "", ""⟩] "a").map
          Entity.corp_name) = some [(1 : ℚ), 2] ∧
    (sortDesc ([(1 : ℚ), 2].zip
        (candidates [⟨"1", "ab", "", ""⟩, ⟨"2", "ba", "", ""⟩] "a"))).Pairwise
      (fun a b => b.1 ≤ a.1) :=
  ⟨rfl,
   (ranked_sorted_stable (fun _ _ => some [(1 : ℚ), 2])
     [⟨"1", "ab", "", ""⟩, ⟨"2", "ba", "", ""⟩] "a" 2 [(1 : ℚ), 2]
     rfl (by decide)).1⟩

/-- C3: the drop/create/bulk-insert sequence is NOT atomic. With prior rows
    [7] on disk and an executemany that raises, the run ends with the corpus
    table existing and EMPTY: under sqlite3's legacy transaction control the
    DROP and CREATE autocommitted before the INSERT implicitly opened the
    transaction, so the rollback in SQLiteDB.__exit__ undoes only the
    inserts, not the destructive drop. The prior state (a table containing
    row 7) is lost. -/
theorem replace_all_insert_failure_empties_table :
    (fetch_dart_corp_list (some [7]) [8] true).2 = some ([] : List Nat) ∧
    (fetch_dart_corp_list (some [7]) [8] true).1 =
      Except.error SyncErr.dbError ∧
    some ([] : List Nat) ≠ some [7] := by
  exact ⟨rfl, rfl, by decide⟩

/-- C4: the count invariant of the synchronizer — a run that returns without
    raising leaves the store with exactly one row per fetched record, and
    the post-insert check raises the fatal mismatch error whenever the
    counted rows differ from the fetched records. -/
theorem sync_count_invariant {α : Type} (disk : Option (List α))
    (data : List α) (execFails : Bool)
    (h : (fetch_dart_corp_list disk data execFails).1 = Except.ok ()) :
    tableCount (fetch_dart_corp_list disk data execFails).2 = data.length ∧
    ∀ c n : Nat, c ≠ n → countCheck c n = Except.error SyncErr.countMismatch := by
  constructor
  · cases data with
    | nil =>
      simp [fetch_dart_corp_list, SQLiteDB.insert_many_dicts] at h
    | cons a l =>
      cases execFails with
      | true =>
        simp [fetch_dart_corp_list, SQLiteDB.insert_many_dicts,
          SQLiteDB.create_table, SQLiteDB.execDDL, SQLiteDB.execDML,
          SQLiteDB.view] at h
      | false =>
        simp [fetch_dart_corp_list, SQLiteDB.insert_many_dicts,
          SQLiteDB.create_table, SQLiteDB.execDDL, SQLiteDB.execDML,
          SQLiteDB.view, SQLiteDB.rowCount, SQLiteDB.commit, countCheck,
          tableCount]
  · intro c n hcn
    simp [countCheck, hcn]

/-- C4, witness: a successful one-record sync leaves exactly one row, and a
    concrete mismatched count raises. -/
theorem sync_count_invariant_witness :
    (fetch_dart_corp_list (none : Option (List Nat)) [5] false).1 =
      Except.ok () ∧
    tableCount (fetch_dart_corp_list (none : Option (List Nat)) [5] false).2 = 1 ∧
    countCheck 2 1 = Except.error SyncErr.countMismatch :=
  ⟨rfl,
   (sync_count_invariant (none : Option (List Nat)) [5] false rfl).1,
   (sync_count_invariant (none : Option (List Nat)) [5] false rfl).2 2 1
     (by decide)⟩

/-- C9: synchronizing an empty corpus always fails — insert_many_dicts
    raises ValueError on the empty list before touching the database, so
    fetch_dart_corp_list propagates that error for every prior disk state;
    no empty-corpus sync completes successfully. -/
theorem sync_empty_corpus_fails {α : Type} (disk : Option (List α))
    (execFails : Bool) (db : SQLiteDB α) :
    (fetch_dart_corp_list disk [] execFails).1 =
      Except.error SyncErr.valueError ∧
    (SQLiteDB.insert_many_dicts db [] execFails).1 =
      Except.error SyncErr.valueError := by
  constructor
  · simp [fetch_dart_corp_list, SQLiteDB.insert_many_dicts]
  · simp [SQLiteDB.insert_many_dicts]
